import Mathlib

/-!
Verification of the Pong/Breakout simulation engine (`src/pong.ts`).

The engine is embedded shallowly: JavaScript numbers are modelled as
rationals (every arithmetic operation the engine performs is exact on the
values it manipulates), the one `Math.random()` draw per ball reset is
threaded explicitly as a `Bool` oracle (`serveDir`), and the DOM audio
handle `breakoutAddedEffects` is omitted from the state (it is an opaque
I/O resource never read by the reducer).

The named local constants of the source's `objInteractionHandling`
(`isballp1Endzone`, `isballBounceOnLeftBar`, `mainState`, ...) are hoisted
to top-level functions of the same name, each taking the state whose ball
has already been moved by `tick` — exactly the closure argument they read
in the source.
-/

set_option autoImplicit false
set_option maxRecDepth 200000
set_option maxHeartbeats 1600000

namespace Pong

/-- Source `Constants.CanvasSize`. -/
def CanvasSize : ℚ := 600

/-- Source `Constants.BallRadius`. -/
def BallRadius : ℚ := 7

/-- Source `Constants.BarHeight`. -/
def BarHeight : ℚ := 75

/-- Source `Constants.BarWidth`. -/
def BarWidth : ℚ := 6

/-- Source `Constants.maxBounceAngle`. -/
def maxBounceAngle : ℚ := 500

/-- Source `Constants.maxScore`. -/
def maxScore : ℚ := 7

/-- Source `Constants.playerBarNum`. -/
def playerBarNum : ℚ := 1

/-- Source `Constants.computerBarNum`. -/
def computerBarNum : ℚ := 2

/-- Source `Constants.opacityReduction`. -/
def opacityReduction : ℚ := 1/4

/-- Source class `Vector`: immutable 2D vector. -/
structure Vector where
  x : ℚ
  y : ℚ
deriving DecidableEq

/-- `Vector.add`. -/
def Vector.add (v w : Vector) : Vector := ⟨v.x + w.x, v.y + w.y⟩

/-- `Vector.flipY`. -/
def Vector.flipY (v : Vector) : Vector := ⟨v.x, -v.y⟩

/-- `Vector.flipX`. -/
def Vector.flipX (v : Vector) : Vector := ⟨-v.x, v.y⟩

/-- `Vector.alterY`. -/
def Vector.alterY (v : Vector) (y : ℚ) : Vector := ⟨v.x, y⟩

/-- `Vector.Zero`. -/
def Vector.Zero : Vector := ⟨0, 0⟩

/-- Source `calcBouncedVelocity`. -/
def calcBouncedVelocity (currVec : Vector) (incomingPos : ℚ) : Vector :=
  ⟨-currVec.x, maxBounceAngle * -(incomingPos + BarHeight / 2) / (BarHeight / 2) / 100⟩

/-- Source type `NewtonianBody`. The source's `createBar` leaves `velocity`
undefined and no code path ever reads a bar's velocity; we initialise it to
`Vector.Zero` there. -/
structure NewtonianBody where
  position : Vector
  acceleration : Vector
  velocity : Vector
  size : ℚ
deriving DecidableEq

/-- Source type `BrickBody`. -/
structure BrickBody where
  id : ℚ
  position : Vector
  width : ℚ
  height : ℚ
  opacity : ℚ
  numberOfHitsLeft : ℚ
deriving DecidableEq

/-- Source type `State`, minus the DOM audio handle `breakoutAddedEffects`. -/
structure State where
  time : ℚ
  playerBar : NewtonianBody
  computerBar : NewtonianBody
  ball : NewtonianBody
  p1Score : ℚ
  p2Score : ℚ
  endOfGame : ℚ
  computerDifficulty : ℚ
  isBreakout : Bool
  bricks : List BrickBody
  bricksToRemove : List ℚ
deriving DecidableEq

/-- Source `createBar` with its default arguments. -/
def createBar (p : ℚ) : NewtonianBody :=
  { position := ⟨if p = 1 then CanvasSize / 8 else if p = 2 then 7 * CanvasSize / 8 else 0,
                 CanvasSize / 2 - BarHeight / 2⟩
    acceleration := Vector.Zero
    velocity := Vector.Zero
    size := BarHeight }

/-- Source `createBall` with its default arguments; `serveDir` models the
`Math.random() > 0.5` draw picking the horizontal serve direction. -/
def createBall (serveDir : Bool) : NewtonianBody :=
  { position := ⟨CanvasSize / 2, CanvasSize / 2⟩
    acceleration := Vector.Zero
    velocity := ⟨if serveDir then 3 else -3, 0⟩
    size := BallRadius }

/-- Source `createBrick` (curried constructor for breakout bricks). -/
def createBrick (wid h opac numHitLeft : ℚ) (i : ℚ) (pos : Vector) : BrickBody :=
  { id := i
    position := pos
    width := wid
    height := h
    opacity := opac
    numberOfHitsLeft := numHitLeft }

/-- Source `initialiseBricks`: `CanvasSize / tempBrickHeight = 600 / 40 = 15`
bricks with ids `1..15`, alternating `pixelsOffCenter = 20` off centre,
`tempBrickHeight = 40`. -/
def initialiseBricks : List BrickBody :=
  (List.range (600 / 40)).map fun (index : ℕ) =>
    createBrick 7 (40 - 2) 1 4 ((index : ℚ) + 1)
      ⟨CanvasSize / 2 + (if index % 2 = 0 then 20 else -20), (index : ℚ) * 40⟩

/-- Source `initialState`; `serveDir0` is the random draw consumed by the one
`createBall()` call made when the constant is initialised. -/
def initialState (serveDir0 : Bool) : State :=
  { time := 0
    playerBar := createBar playerBarNum
    computerBar := createBar computerBarNum
    ball := createBall serveDir0
    p1Score := 0
    p2Score := 0
    endOfGame := 0
    isBreakout := false
    computerDifficulty := 25 / 20
    bricks := initialiseBricks
    bricksToRemove := [] }

/-- Source `incrementScore`. -/
def incrementScore (score : ℚ) (hasWonPoint : Bool) : ℚ :=
  score + if hasWonPoint then 1 else 0

/-- Source `calculateBallBounce`; the last argument defaults to `false` at the
source's non-breakout call site, so it is passed explicitly there. -/
def calculateBallBounce (ball : NewtonianBody) (isballBounceOnBorder isballBounceOnPaddle : Bool)
    (paddleAimVerticalError : ℚ) (isBallBounceOnBrick : Bool) : NewtonianBody :=
  { ball with velocity :=
      if isballBounceOnPaddle then calcBouncedVelocity ball.velocity paddleAimVerticalError
      else if isballBounceOnBorder then ball.velocity.flipY
      else if isBallBounceOnBrick then ball.velocity.flipX.flipY
      else ball.velocity }

/-- Source `moveObject`. -/
def moveObject (o : NewtonianBody) : NewtonianBody :=
  { o with position := o.position.add o.velocity }

/-- Source local `isballp1Endzone`: ball in player 1's endzone (scores p2). -/
def isballp1Endzone (s : State) : Bool := decide (s.ball.position.x ≤ 0)

/-- Source local `isballp2Endzone`: ball in player 2's endzone (scores p1). -/
def isballp2Endzone (s : State) : Bool := decide (s.ball.position.x ≥ CanvasSize)

/-- Source local `newP1Score`. -/
def newP1Score (s : State) : ℚ := incrementScore s.p1Score (isballp2Endzone s)

/-- Source local `newP2Score`. -/
def newP2Score (s : State) : ℚ := incrementScore s.p2Score (isballp1Endzone s)

/-- Source local `isballBounceOnLeftBar`. -/
def isballBounceOnLeftBar (s : State) : Bool :=
  decide (s.ball.position.x - s.ball.size - BarWidth ≤ CanvasSize / 8 ∧
          s.ball.position.x ≥ CanvasSize / 8 - 10 ∧
          (s.ball.position.y ≥ s.playerBar.position.y ∧
           s.ball.position.y ≤ s.playerBar.position.y + BarHeight))

/-- Source local `isballBounceOnRightBar`. -/
def isballBounceOnRightBar (s : State) : Bool :=
  decide (s.ball.position.x + s.ball.size ≥ 7 * CanvasSize / 8 ∧
          s.ball.position.x ≤ 7 * CanvasSize / 8 + 10 ∧
          (s.ball.position.y ≥ s.computerBar.position.y ∧
           s.ball.position.y ≤ s.computerBar.position.y + BarHeight))

/-- Source local `isballBounceOnBorder`. -/
def isballBounceOnBorder (s : State) : Bool :=
  decide (s.ball.position.y ≤ 0 ∨ s.ball.position.y ≥ CanvasSize)

/-- Source local `paddleAimVerticalError`. -/
def paddleAimVerticalError (s : State) : ℚ :=
  if isballBounceOnLeftBar s then s.playerBar.position.y - s.ball.position.y
  else if isballBounceOnRightBar s then s.computerBar.position.y - s.ball.position.y
  else 0

/-- Source local `isBallBounceOnBrick` (AABB overlap of ball square and brick
rectangle). -/
def isBallBounceOnBrick (ball : NewtonianBody) (b : BrickBody) : Bool :=
  decide ((b.position.x ≤ ball.position.x + ball.size ∧
           ball.position.x - ball.size ≤ b.position.x + b.width) ∧
          (b.position.y ≤ ball.position.y + ball.size ∧
           ball.position.y - ball.size ≤ b.position.y + b.height))

/-- Source local `setBrickOpacity`. -/
def setBrickOpacity (b : BrickBody) : BrickBody :=
  { b with opacity := b.opacity - opacityReduction, numberOfHitsLeft := b.numberOfHitsLeft - 1 }

/-- Source local `brickToRemove`: JS `!Boolean(numberOfHitsLeft)`, i.e. the
count is exactly zero. -/
def brickToRemove (b : BrickBody) : Bool := decide (b.numberOfHitsLeft = 0)

/-- Source local `brickToKeep`. -/
def brickToKeep (b : BrickBody) : Bool := decide (b.numberOfHitsLeft > 0)

/-- Source local `getBrickID`. -/
def getBrickID (b : BrickBody) : ℚ := b.id

/-- The source's `s.bricks.map(isBallBounceOnBrick).includes(true)`. -/
def anyBrickHit (s : State) : Bool :=
  (s.bricks.map (isBallBounceOnBrick s.ball)).contains true

/-- Source local `newBricksState` (computed only in breakout mode). -/
def newBricksState (s : State) : List BrickBody :=
  s.bricks.map fun x => if isBallBounceOnBrick s.ball x then setBrickOpacity x else x

/-- Source local `mainState`: score update, computer-bar AI tracking and win
detection, shared by both game modes. -/
def mainState (s : State) : State :=
  { s with
    p1Score := newP1Score s
    p2Score := newP2Score s
    -- JS `Math.sign(vx) ?` is truthy exactly when vx ≠ 0
    computerBar :=
      if s.ball.velocity.x ≠ 0 then
        { s.computerBar with
          position := s.computerBar.position.alterY
            -- JS `Math.sign(compBarPos.y - ballPos.y + BarHeight/2) === -1`
            (if s.computerBar.position.y - s.ball.position.y + BarHeight / 2 < 0 then
              s.computerBar.position.y + s.computerDifficulty
            else
              s.computerBar.position.y - s.computerDifficulty) }
      else s.computerBar
    endOfGame :=
      if newP1Score s = maxScore then playerBarNum
      else if newP2Score s = maxScore then computerBarNum
      else 0 }

/-- Source `objInteractionHandling`: collision, score, AI-tracking and brick
resolution on a state whose ball has already been moved. `serveDir` is the
random draw consumed if the ball is reset by `createBall()`. -/
def objInteractionHandling (serveDir : Bool) (s : State) : State :=
  if s.isBreakout then
    { mainState s with
      ball :=
        if isballp1Endzone s || isballp2Endzone s then createBall serveDir
        else calculateBallBounce s.ball (isballBounceOnBorder s)
          (isballBounceOnLeftBar s || isballBounceOnRightBar s)
          (paddleAimVerticalError s) (anyBrickHit s)
      bricks :=
        if anyBrickHit s then (newBricksState s).filter brickToKeep else s.bricks
      bricksToRemove :=
        s.bricksToRemove ++ ((newBricksState s).filter brickToRemove).map getBrickID }
  else
    { mainState s with
      ball :=
        if isballp1Endzone s || isballp2Endzone s then createBall serveDir
        else calculateBallBounce s.ball (isballBounceOnBorder s)
          (isballBounceOnLeftBar s || isballBounceOnRightBar s)
          (paddleAimVerticalError s) false }

/-- The argument `{...s, time: elapsed, ball: moveObject(s.ball)}` that the
source's `tick` passes to `objInteractionHandling`. -/
def movedState (s : State) (elapsed : ℚ) : State :=
  { s with time := elapsed, ball := moveObject s.ball }

/-- Source `tick`. -/
def tick (serveDir : Bool) (s : State) (elapsed : ℚ) : State :=
  objInteractionHandling serveDir (movedState s elapsed)

/-- The reducer's closed event union (source stub classes `Tick`, `Slide`,
`Restart`, `SetDifficulty`, `ToggleBreakout`). A `tick` carries the oracle for
the `Math.random()` draw its step would consume on a ball reset. -/
inductive GameEvent where
  | tick (elapsed : ℚ) (serveDir : Bool)
  | slide (direction : ℚ)
  | restart (isRestart : Bool)
  | setDifficulty (difficVal : ℚ)
  | toggleBreakout (isBreak : Bool)
deriving DecidableEq

/-- Source `reduceState`; `serveDir0` identifies the `initialState` constant
returned verbatim by the `Restart` branch. -/
def reduceState (serveDir0 : Bool) (s : State) (eve : GameEvent) : State :=
  match eve with
  | .tick elapsed serveDir => tick serveDir s elapsed
  | .slide direction =>
    { s with playerBar :=
      { s.playerBar with position :=
          if (s.playerBar.position.add ⟨0, direction⟩).y ≤ CanvasSize - BarHeight ∧
             (s.playerBar.position.add ⟨0, direction⟩).y ≥ 0 then
            s.playerBar.position.add ⟨0, direction⟩
          else s.playerBar.position } }
  | .restart _ => initialState serveDir0
  | .toggleBreakout isBreak => { s with isBreakout := isBreak }
  | .setDifficulty difficVal => { s with computerDifficulty := difficVal / 20 }

/-- The source's `scan(reduceState, initialState)`: left fold of the reducer
over an event list, seeded with the initial state. -/
def runGame (serveDir0 : Bool) (evs : List GameEvent) : State :=
  evs.foldl (reduceState serveDir0) (initialState serveDir0)

/-- A state is reachable when some serve-direction oracle and event sequence
produce it by folding the reducer from the initial state. -/
def Reachable (s : State) : Prop :=
  ∃ serveDir0 evs, runGame serveDir0 evs = s

/-! ### Computability of the core rational operations

`Rat.add`, `Rat.sub`, `Rat.mul` and `Rat.inv` are sealed in the library; the
concrete game runs below are evaluated by `decide`, which needs them to
unfold. Re-opening them is purely a reducibility annotation and does not
change any definition. -/

attribute [local semireducible] Rat.mul Rat.inv Rat.add Rat.sub

/-! ### Small-step characterisation lemmas -/

theorem objIH_playerBar (d : Bool) (s : State) :
    (objInteractionHandling d s).playerBar = s.playerBar := by
  unfold objInteractionHandling
  split <;> rfl

theorem objIH_p1Score (d : Bool) (s : State) :
    (objInteractionHandling d s).p1Score = newP1Score s := by
  unfold objInteractionHandling
  split <;> rfl

theorem objIH_p2Score (d : Bool) (s : State) :
    (objInteractionHandling d s).p2Score = newP2Score s := by
  unfold objInteractionHandling
  split <;> rfl

theorem objIH_endOfGame (d : Bool) (s : State) :
    (objInteractionHandling d s).endOfGame =
      if newP1Score s = maxScore then playerBarNum
      else if newP2Score s = maxScore then computerBarNum
      else 0 := by
  unfold objInteractionHandling
  split <;> rfl

theorem objIH_isBreakout (d : Bool) (s : State) :
    (objInteractionHandling d s).isBreakout = s.isBreakout := by
  unfold objInteractionHandling
  split <;> rfl

theorem objIH_computerDifficulty (d : Bool) (s : State) :
    (objInteractionHandling d s).computerDifficulty = s.computerDifficulty := by
  unfold objInteractionHandling
  split <;> rfl

theorem objIH_computerBar_x (d : Bool) (s : State) :
    (objInteractionHandling d s).computerBar.position.x = s.computerBar.position.x := by
  unfold objInteractionHandling mainState
  split <;> (dsimp only) <;> split <;> rfl

theorem objIH_ball (d : Bool) (s : State) :
    (objInteractionHandling d s).ball =
      if isballp1Endzone s || isballp2Endzone s then createBall d
      else calculateBallBounce s.ball (isballBounceOnBorder s)
        (isballBounceOnLeftBar s || isballBounceOnRightBar s)
        (paddleAimVerticalError s) (s.isBreakout && anyBrickHit s) := by
  unfold objInteractionHandling
  cases hb : s.isBreakout <;> simp [calculateBallBounce]

theorem objIH_bricks (d : Bool) (s : State) :
    (objInteractionHandling d s).bricks =
      if s.isBreakout then
        (if anyBrickHit s then (newBricksState s).filter brickToKeep else s.bricks)
      else s.bricks := by
  unfold objInteractionHandling
  cases hb : s.isBreakout <;> simp [mainState]

theorem objIH_bricksToRemove (d : Bool) (s : State) :
    (objInteractionHandling d s).bricksToRemove =
      if s.isBreakout then
        s.bricksToRemove ++ ((newBricksState s).filter brickToRemove).map getBrickID
      else s.bricksToRemove := by
  unfold objInteractionHandling
  cases hb : s.isBreakout <;> simp [mainState]

theorem tick_def (d : Bool) (s : State) (el : ℚ) :
    tick d s el = objInteractionHandling d (movedState s el) := rfl

/-! ### Per-event facts about the reducer -/

theorem reduceState_tick (d0 d : Bool) (s : State) (el : ℚ) :
    reduceState d0 s (.tick el d) = tick d s el := rfl

theorem reduceState_slide_playerBar_position (d0 : Bool) (s : State) (dir : ℚ) :
    (reduceState d0 s (.slide dir)).playerBar.position =
      if (s.playerBar.position.add ⟨0, dir⟩).y ≤ CanvasSize - BarHeight ∧
         (s.playerBar.position.add ⟨0, dir⟩).y ≥ 0 then
        s.playerBar.position.add ⟨0, dir⟩
      else s.playerBar.position := rfl

theorem reduceState_restart (d0 : Bool) (s : State) (b : Bool) :
    reduceState d0 s (.restart b) = initialState d0 := rfl

theorem reduceState_toggleBreakout (d0 : Bool) (s : State) (b : Bool) :
    reduceState d0 s (.toggleBreakout b) = { s with isBreakout := b } := rfl

theorem reduceState_setDifficulty (d0 : Bool) (s : State) (v : ℚ) :
    reduceState d0 s (.setDifficulty v) = { s with computerDifficulty := v / 20 } := rfl

/-! ### Invariant machinery: induction along the fold -/

theorem foldl_invariant (d0 : Bool) (P : State → Prop)
    (hstep : ∀ s e, P s → P (reduceState d0 s e)) :
    ∀ (evs : List GameEvent) (s : State), P s → P (evs.foldl (reduceState d0) s) := by
  intro evs
  induction evs with
  | nil => exact fun s h => h
  | cons e rest ih => exact fun s h => ih _ (hstep s e h)

theorem reachable_invariant (P : State → Prop)
    (hinit : ∀ d0, P (initialState d0))
    (hstep : ∀ d0 s e, P s → P (reduceState d0 s e)) :
    ∀ s, Reachable s → P s := by
  rintro s ⟨d0, evs, rfl⟩
  exact foldl_invariant d0 P (hstep d0) evs _ (hinit d0)

/-! ### The player paddle stays on the canvas -/

def PlayerBarInRange (s : State) : Prop :=
  0 ≤ s.playerBar.position.y ∧ s.playerBar.position.y ≤ CanvasSize - BarHeight

theorem playerBarInRange_step (d0 : Bool) (s : State) (e : GameEvent)
    (h : PlayerBarInRange s) : PlayerBarInRange (reduceState d0 s e) := by
  cases e with
  | tick el d =>
    have hp : (reduceState d0 s (.tick el d)).playerBar = s.playerBar :=
      objIH_playerBar d (movedState s el)
    unfold PlayerBarInRange
    rw [hp]
    exact h
  | slide dir =>
    unfold PlayerBarInRange
    rw [reduceState_slide_playerBar_position]
    split
    · next hc => exact ⟨hc.2, hc.1⟩
    · exact h
  | restart b =>
    rw [reduceState_restart]
    unfold PlayerBarInRange
    cases d0 <;> decide
  | toggleBreakout b => exact h
  | setDifficulty v => exact h

/-! ### `endOfGame` is a function of the two scores -/

def EndOfGameCanon (s : State) : Prop :=
  s.endOfGame =
    if s.p1Score = maxScore then playerBarNum
    else if s.p2Score = maxScore then computerBarNum
    else 0

theorem endOfGameCanon_step (d0 : Bool) (s : State) (e : GameEvent)
    (h : EndOfGameCanon s) : EndOfGameCanon (reduceState d0 s e) := by
  cases e with
  | tick el d =>
    unfold EndOfGameCanon
    rw [reduceState_tick, tick_def, objIH_endOfGame, objIH_p1Score, objIH_p2Score]
  | slide dir => exact h
  | restart b =>
    rw [reduceState_restart]
    unfold EndOfGameCanon
    cases d0 <;> decide
  | toggleBreakout b => exact h
  | setDifficulty v => exact h

/-! ### The ball's horizontal speed is always ±3 -/

def BallVelXOk (s : State) : Prop :=
  s.ball.velocity.x = 3 ∨ s.ball.velocity.x = -3

theorem ballVelXOk_step (d0 : Bool) (s : State) (e : GameEvent)
    (h : BallVelXOk s) : BallVelXOk (reduceState d0 s e) := by
  cases e with
  | tick el d =>
    unfold BallVelXOk
    rw [reduceState_tick, tick_def, objIH_ball]
    split
    · cases d <;> simp [createBall]
    · have hv : (movedState s el).ball.velocity = s.ball.velocity := rfl
      unfold calculateBallBounce
      dsimp only
      split_ifs <;>
        simp only [calcBouncedVelocity, Vector.flipX, Vector.flipY, hv] <;>
        rcases h with h | h <;> simp [h]
  | slide dir => exact h
  | restart b =>
    rw [reduceState_restart]
    unfold BallVelXOk
    cases d0 <;> decide
  | toggleBreakout b => exact h
  | setDifficulty v => exact h

/-! ### The paddles' x coordinates never change -/

def BarXConst (s : State) : Prop :=
  s.playerBar.position.x = CanvasSize / 8 ∧
  s.computerBar.position.x = 7 * CanvasSize / 8

theorem barXConst_step (d0 : Bool) (s : State) (e : GameEvent)
    (h : BarXConst s) : BarXConst (reduceState d0 s e) := by
  cases e with
  | tick el d =>
    have hp : (reduceState d0 s (.tick el d)).playerBar = s.playerBar :=
      objIH_playerBar d (movedState s el)
    have hc : (reduceState d0 s (.tick el d)).computerBar.position.x =
        s.computerBar.position.x :=
      objIH_computerBar_x d (movedState s el)
    unfold BarXConst
    rw [hp, hc]
    exact h
  | slide dir =>
    unfold BarXConst
    rw [reduceState_slide_playerBar_position]
    refine ⟨?_, h.2⟩
    split
    · simpa [Vector.add] using h.1
    · exact h.1
  | restart b =>
    rw [reduceState_restart]
    unfold BarXConst
    cases d0 <;> decide
  | toggleBreakout b => exact h
  | setDifficulty v => exact h

/-! ### Brick bookkeeping invariant -/

def goodHits (b : BrickBody) : Prop := ∃ n : ℕ, b.numberOfHitsLeft = (n : ℚ) ∧ 1 ≤ n

def BrickInv (s : State) : Prop :=
  (∀ b ∈ s.bricks, goodHits b) ∧
  (s.bricks.map BrickBody.id).Nodup ∧
  s.bricksToRemove.Nodup ∧
  (∀ b ∈ s.bricks, b.id ∉ s.bricksToRemove)

theorem getBrickID_eq : getBrickID = BrickBody.id := rfl

theorem anyBrickHit_iff (s : State) :
    anyBrickHit s = true ↔ ∃ b ∈ s.bricks, isBallBounceOnBrick s.ball b = true := by
  unfold anyBrickHit
  rw [List.contains_eq_any_beq, List.any_eq_true]
  constructor
  · rintro ⟨x, hx, hbx⟩
    rcases List.mem_map.1 hx with ⟨b, hb, rfl⟩
    exact ⟨b, hb, (beq_iff_eq.1 hbx).symm⟩
  · rintro ⟨b, hb, hbx⟩
    exact ⟨true, List.mem_map.2 ⟨b, hb, hbx⟩, by simp⟩

theorem newBricksState_map_id (s : State) :
    (newBricksState s).map BrickBody.id = s.bricks.map BrickBody.id := by
  unfold newBricksState
  rw [List.map_map]
  exact List.map_congr_left fun b _ => by
    by_cases hhit : isBallBounceOnBrick s.ball b = true <;> simp [hhit, setBrickOpacity]

theorem newBricksState_hits (s : State) (hgood : ∀ b ∈ s.bricks, goodHits b) :
    ∀ x ∈ newBricksState s, ∃ n : ℕ, x.numberOfHitsLeft = (n : ℚ) := by
  intro x hx
  rcases List.mem_map.1 hx with ⟨b, hb, rfl⟩
  rcases hgood b hb with ⟨n, hn, h1⟩
  by_cases hhit : isBallBounceOnBrick s.ball b = true
  · exact ⟨n - 1, by simp [hhit, setBrickOpacity, hn, Nat.cast_sub h1]⟩
  · exact ⟨n, by simp [hhit, hn]⟩

theorem newBricksState_mem_id (s : State) {x : BrickBody} (hx : x ∈ newBricksState s) :
    ∃ b ∈ s.bricks, b.id = x.id := by
  have hm : x.id ∈ (newBricksState s).map BrickBody.id := List.mem_map.2 ⟨x, hx, rfl⟩
  rw [newBricksState_map_id] at hm
  exact List.mem_map.1 hm

theorem removed_nil_of_no_hit (s : State) (hgood : ∀ b ∈ s.bricks, goodHits b)
    (hA : ¬ anyBrickHit s = true) :
    (newBricksState s).filter brickToRemove = [] := by
  rw [List.filter_eq_nil_iff]
  intro x hx
  rcases List.mem_map.1 hx with ⟨b, hb, rfl⟩
  have hnohit : ¬ isBallBounceOnBrick s.ball b = true := fun hc =>
    hA ((anyBrickHit_iff s).2 ⟨b, hb, hc⟩)
  rcases hgood b hb with ⟨n, hn, h1⟩
  have hne : (n : ℚ) ≠ 0 := by exact_mod_cast Nat.one_le_iff_ne_zero.1 h1
  simp [hnohit, brickToRemove, hn, hne]

theorem brickInv_initial (d0 : Bool) : BrickInv (initialState d0) := by
  refine ⟨?_, ?_, ?_, ?_⟩
  · intro b hb
    have h4 : ∀ b ∈ initialiseBricks, b.numberOfHitsLeft = 4 := by decide
    exact ⟨4, h4 b hb, by norm_num⟩
  · show (initialiseBricks.map BrickBody.id).Nodup
    decide
  · simp [initialState]
  · simp [initialState]

theorem brickInv_step (d0 : Bool) (s : State) (e : GameEvent)
    (h : BrickInv s) : BrickInv (reduceState d0 s e) := by
  obtain ⟨hgood, hids, hrm, hdisj⟩ := h
  cases e with
  | slide dir => exact ⟨hgood, hids, hrm, hdisj⟩
  | toggleBreakout b => exact ⟨hgood, hids, hrm, hdisj⟩
  | setDifficulty v => exact ⟨hgood, hids, hrm, hdisj⟩
  | restart b =>
    rw [reduceState_restart]
    exact brickInv_initial d0
  | tick el d =>
    rw [reduceState_tick, tick_def]
    have hgt : ∀ b ∈ (movedState s el).bricks, goodHits b := hgood
    refine ⟨?_, ?_, ?_, ?_⟩
    · rw [objIH_bricks]
      split_ifs with hB hA
      · intro x hx
        obtain ⟨hx1, hx2⟩ := List.mem_filter.1 hx
        rcases newBricksState_hits _ hgt x hx1 with ⟨n, hn⟩
        have hpos : (0:ℚ) < x.numberOfHitsLeft := by
          simpa [brickToKeep] using hx2
        rw [hn] at hpos
        have hn1 : 1 ≤ n := by exact_mod_cast hpos
        exact ⟨n, hn, hn1⟩
      · exact hgood
      · exact hgood
    · rw [objIH_bricks]
      split_ifs with hB hA
      · exact List.Nodup.sublist (List.Sublist.map _ (List.filter_sublist _))
          (by rw [newBricksState_map_id]; exact hids)
      · exact hids
      · exact hids
    · rw [objIH_bricksToRemove]
      split_ifs with hB
      · rw [List.nodup_append]
        refine ⟨hrm, ?_, ?_⟩
        · rw [getBrickID_eq]
          exact List.Nodup.sublist (List.Sublist.map _ (List.filter_sublist _))
            (by rw [newBricksState_map_id]; exact hids)
        · intro a ha hmem
          rcases List.mem_map.1 hmem with ⟨x, hx, rfl⟩
          have hx1 : x ∈ newBricksState (movedState s el) := (List.mem_filter.1 hx).1
          rcases newBricksState_mem_id _ hx1 with ⟨b, hb, hid⟩
          exact hdisj b hb (by rw [hid]; exact ha)
      · exact hrm
    · rw [objIH_bricks, objIH_bricksToRemove]
      split_ifs with hB hA
      · intro x hx
        obtain ⟨hx1, hx2⟩ := List.mem_filter.1 hx
        rw [List.mem_append]
        rintro (hmem | hmem)
        · rcases newBricksState_mem_id _ hx1 with ⟨b, hb, hid⟩
          exact hdisj b hb (hid ▸ hmem)
        · rcases List.mem_map.1 hmem with ⟨y, hy, hidy⟩
          obtain ⟨hy1, hy2⟩ := List.mem_filter.1 hy
          have hnn : ((newBricksState (movedState s el)).map BrickBody.id).Nodup := by
            rw [newBricksState_map_id]; exact hids
          have hxy : y = x := by
            refine List.inj_on_of_nodup_map hnn hy1 hx1 ?_
            rw [← getBrickID_eq]; exact hidy
          rw [hxy] at hy2
          have hk : (0:ℚ) < x.numberOfHitsLeft := by simpa [brickToKeep] using hx2
          have hr : x.numberOfHitsLeft = 0 := by simpa [brickToRemove] using hy2
          rw [hr] at hk
          exact lt_irrefl 0 hk
      · rw [removed_nil_of_no_hit _ hgt hA]
        simpa using hdisj
      · exact hdisj

theorem reachable_brickInv (s : State) (h : Reachable s) : BrickInv s :=
  reachable_invariant BrickInv brickInv_initial brickInv_step s h

/-! ### Concrete runs of the engine

`slideEvs` pushes the player paddle down out of the serve line, so a leftward
serve crosses the player column untouched and reaches the endzone after
exactly 100 ticks; the ball is then re-centred and the pattern repeats. The
long folds are evaluated in blocks of at most 50 ticks between explicitly
stated intermediate states (all other arithmetic in those runs is exact and
periodic, so only the ball's x coordinate, `p2Score` and `endOfGame` vary). -/

def tickEvs (n : ℕ) : List GameEvent := List.replicate n (GameEvent.tick 0 false)

def slideEvs : List GameEvent := List.replicate 5 (GameEvent.slide 8)

/-- The state reached after `slideEvs` followed by `50 * k` ticks. -/
def midState (bx p2 eog : ℚ) : State :=
  { time := 0
    playerBar := { position := ⟨75, 605/2⟩, acceleration := Vector.Zero
                   velocity := Vector.Zero, size := 75 }
    computerBar := { position := ⟨525, 525/2⟩, acceleration := Vector.Zero
                     velocity := Vector.Zero, size := 75 }
    ball := { position := ⟨bx, 300⟩, acceleration := Vector.Zero
              velocity := ⟨-3, 0⟩, size := 7 }
    p1Score := 0
    p2Score := p2
    endOfGame := eog
    computerDifficulty := 5/4
    isBreakout := false
    bricks := initialiseBricks
    bricksToRemove := [] }

theorem runGame_append (d0 : Bool) (a b : List GameEvent) :
    runGame d0 (a ++ b) = b.foldl (reduceState d0) (runGame d0 a) := by
  unfold runGame
  rw [List.foldl_append]

theorem run_next (k : ℕ) (s1 s2 : State)
    (h1 : runGame false (slideEvs ++ tickEvs k) = s1)
    (h2 : (tickEvs 50).foldl (reduceState false) s1 = s2) :
    runGame false (slideEvs ++ tickEvs (k + 50)) = s2 := by
  have he : slideEvs ++ tickEvs (k + 50) = (slideEvs ++ tickEvs k) ++ tickEvs 50 := by
    rw [List.append_assoc]
    unfold tickEvs
    rw [List.replicate_add]
  rw [he, runGame_append, h1, h2]

theorem run0 : runGame false (slideEvs ++ tickEvs 0) = midState 300 0 0 := by decide

theorem chunkA0 :
    (tickEvs 50).foldl (reduceState false) (midState 300 0 0) = midState 150 0 0 := by decide

theorem chunkA1 :
    (tickEvs 50).foldl (reduceState false) (midState 150 0 0) = midState 300 1 0 := by decide

theorem chunkA2 :
    (tickEvs 50).foldl (reduceState false) (midState 300 1 0) = midState 150 1 0 := by decide

theorem chunkA3 :
    (tickEvs 50).foldl (reduceState false) (midState 150 1 0) = midState 300 2 0 := by decide

theorem chunkA4 :
    (tickEvs 50).foldl (reduceState false) (midState 300 2 0) = midState 150 2 0 := by decide

theorem chunkA5 :
    (tickEvs 50).foldl (reduceState false) (midState 150 2 0) = midState 300 3 0 := by decide

theorem chunkA6 :
    (tickEvs 50).foldl (reduceState false) (midState 300 3 0) = midState 150 3 0 := by decide

theorem chunkA7 :
    (tickEvs 50).foldl (reduceState false) (midState 150 3 0) = midState 300 4 0 := by decide

theorem chunkA8 :
    (tickEvs 50).foldl (reduceState false) (midState 300 4 0) = midState 150 4 0 := by decide

theorem chunkA9 :
    (tickEvs 50).foldl (reduceState false) (midState 150 4 0) = midState 300 5 0 := by decide

theorem chunkA10 :
    (tickEvs 50).foldl (reduceState false) (midState 300 5 0) = midState 150 5 0 := by decide

theorem chunkA11 :
    (tickEvs 50).foldl (reduceState false) (midState 150 5 0) = midState 300 6 0 := by decide

theorem chunkA12 :
    (tickEvs 50).foldl (reduceState false) (midState 300 6 0) = midState 150 6 0 := by decide

theorem chunkA13 :
    (tickEvs 50).foldl (reduceState false) (midState 150 6 0) = midState 300 7 2 := by decide

theorem chunkA14 :
    (tickEvs 50).foldl (reduceState false) (midState 300 7 2) = midState 150 7 2 := by decide

theorem chunkA15 :
    (tickEvs 50).foldl (reduceState false) (midState 150 7 2) = midState 300 8 0 := by decide

theorem run100 : runGame false (slideEvs ++ tickEvs 100) = midState 300 1 0 :=
  run_next 50 _ _ (run_next 0 _ _ run0 chunkA0) chunkA1

theorem run200 : runGame false (slideEvs ++ tickEvs 200) = midState 300 2 0 :=
  run_next 150 _ _ (run_next 100 _ _ run100 chunkA2) chunkA3

theorem run300 : runGame false (slideEvs ++ tickEvs 300) = midState 300 3 0 :=
  run_next 250 _ _ (run_next 200 _ _ run200 chunkA4) chunkA5

theorem run400 : runGame false (slideEvs ++ tickEvs 400) = midState 300 4 0 :=
  run_next 350 _ _ (run_next 300 _ _ run300 chunkA6) chunkA7

theorem run500 : runGame false (slideEvs ++ tickEvs 500) = midState 300 5 0 :=
  run_next 450 _ _ (run_next 400 _ _ run400 chunkA8) chunkA9

theorem run600 : runGame false (slideEvs ++ tickEvs 600) = midState 300 6 0 :=
  run_next 550 _ _ (run_next 500 _ _ run500 chunkA10) chunkA11

theorem run700 : runGame false (slideEvs ++ tickEvs 700) = midState 300 7 2 :=
  run_next 650 _ _ (run_next 600 _ _ run600 chunkA12) chunkA13

theorem run800 : runGame false (slideEvs ++ tickEvs 800) = midState 300 8 0 :=
  run_next 750 _ _ (run_next 700 _ _ run700 chunkA14) chunkA15

/-! ### A concrete breakout run: wearing brick 8 down to one hit

With `SetDifficulty 0` the computer paddle is frozen on the serve line, so a
leftward serve bounces between brick 8 (hit at ball x = 294) and the computer
paddle (hit at ball x = 519) with exactly horizontal velocity, decrementing
the brick every 150 ticks. -/

def breakoutPrefixEvs : List GameEvent :=
  [GameEvent.setDifficulty 0, GameEvent.toggleBreakout true]

/-- States along the breakout run: everything is fixed except the ball's x
coordinate and velocity and brick 8's hit count and opacity. -/
def bState (bx vx hits8 opac8 : ℚ) : State :=
  { time := 0
    playerBar := { position := ⟨75, 525/2⟩, acceleration := Vector.Zero
                   velocity := Vector.Zero, size := 75 }
    computerBar := { position := ⟨525, 525/2⟩, acceleration := Vector.Zero
                     velocity := Vector.Zero, size := 75 }
    ball := { position := ⟨bx, 300⟩, acceleration := Vector.Zero
              velocity := ⟨vx, 0⟩, size := 7 }
    p1Score := 0
    p2Score := 0
    endOfGame := 0
    computerDifficulty := 0
    isBreakout := true
    bricks := initialiseBricks.map fun b =>
      if b.id = 8 then { b with opacity := opac8, numberOfHitsLeft := hits8 } else b
    bricksToRemove := [] }

theorem brun0 : runGame false breakoutPrefixEvs = bState 300 (-3) 4 1 := by decide

theorem chunkB0 :
    (tickEvs 50).foldl (reduceState false) (bState 300 (-3) 4 1) = bState 438 3 3 (3/4) := by
  decide

theorem chunkB1 :
    (tickEvs 50).foldl (reduceState false) (bState 438 3 3 (3/4)) = bState 450 (-3) 3 (3/4) := by
  decide

theorem chunkB2 :
    (tickEvs 50).foldl (reduceState false) (bState 450 (-3) 3 (3/4)) = bState 300 (-3) 3 (3/4) := by
  decide

theorem chunkB3 :
    (tickEvs 50).foldl (reduceState false) (bState 300 (-3) 3 (3/4)) = bState 438 3 2 (1/2) := by
  decide

theorem chunkB4 :
    (tickEvs 50).foldl (reduceState false) (bState 438 3 2 (1/2)) = bState 450 (-3) 2 (1/2) := by
  decide

theorem chunkB5 :
    (tickEvs 50).foldl (reduceState false) (bState 450 (-3) 2 (1/2)) = bState 300 (-3) 2 (1/2) := by
  decide

theorem chunkB6 :
    (tickEvs 50).foldl (reduceState false) (bState 300 (-3) 2 (1/2)) = bState 438 3 1 (1/4) := by
  decide

theorem chunkB7 :
    (tickEvs 50).foldl (reduceState false) (bState 438 3 1 (1/4)) = bState 450 (-3) 1 (1/4) := by
  decide

theorem chunkB8 :
    (tickEvs 50).foldl (reduceState false) (bState 450 (-3) 1 (1/4)) = bState 300 (-3) 1 (1/4) := by
  decide

theorem chunkB9 :
    (tickEvs 1).foldl (reduceState false) (bState 300 (-3) 1 (1/4)) = bState 297 (-3) 1 (1/4) := by
  decide

theorem brun_next (pre : List GameEvent) (n : ℕ) (s1 s2 : State)
    (h1 : runGame false pre = s1)
    (h2 : (tickEvs n).foldl (reduceState false) s1 = s2) :
    runGame false (pre ++ tickEvs n) = s2 := by
  rw [runGame_append, h1, h2]

/-- The event list reaching the pre-removal state: brick 8 has one hit left
and the ball, one tick away, overlaps it. -/
def breakoutWitnessEvs : List GameEvent :=
  breakoutPrefixEvs ++ tickEvs 50 ++ tickEvs 50 ++ tickEvs 50 ++ tickEvs 50 ++
    tickEvs 50 ++ tickEvs 50 ++ tickEvs 50 ++ tickEvs 50 ++ tickEvs 50 ++ tickEvs 1

theorem brun451 : runGame false breakoutWitnessEvs = bState 297 (-3) 1 (1/4) :=
  brun_next _ 1 _ _
    (brun_next _ 50 _ _
      (brun_next _ 50 _ _
        (brun_next _ 50 _ _
          (brun_next _ 50 _ _
            (brun_next _ 50 _ _
              (brun_next _ 50 _ _
                (brun_next _ 50 _ _
                  (brun_next _ 50 _ _
                    (brun_next _ 50 _ _ brun0 chunkB0) chunkB1) chunkB2) chunkB3)
                chunkB4) chunkB5) chunkB6) chunkB7) chunkB8) chunkB9

/-! ### Claim C1 -/

/-- C1, as stated, is false: the computer paddle's AI tracking has no bounds
check, so a reachable state puts it far below the canvas (difficulty 5000
moves it by 5000 pixels in one tick). -/
theorem C1_counterexample :
    ¬ (∀ s, Reachable s →
        (0 ≤ s.playerBar.position.y ∧ s.playerBar.position.y ≤ CanvasSize - BarHeight) ∧
        (0 ≤ s.computerBar.position.y ∧
          s.computerBar.position.y ≤ CanvasSize - BarHeight)) := by
  intro h
  have hx := h (runGame true [GameEvent.setDifficulty 100000, GameEvent.tick 0 true])
    ⟨true, _, rfl⟩
  revert hx
  decide

/-- C1 (amended): in every reachable state the player paddle stays inside the
canvas, `0 ≤ playerBar.position.y ≤ CanvasSize - BarHeight`; the analogous
bound for the computer paddle does not hold (its AI tracking is unclamped). -/
theorem C1_player_paddle_in_bounds :
    ∀ s, Reachable s →
      0 ≤ s.playerBar.position.y ∧ s.playerBar.position.y ≤ CanvasSize - BarHeight :=
  reachable_invariant PlayerBarInRange
    (fun d0 => by unfold PlayerBarInRange; cases d0 <;> decide)
    playerBarInRange_step

/-- C1 witness: the amended bound evaluated at the initial state. -/
theorem C1_witness :
    0 ≤ (runGame false []).playerBar.position.y ∧
    (runGame false []).playerBar.position.y ≤ CanvasSize - BarHeight :=
  C1_player_paddle_in_bounds (runGame false []) ⟨false, [], rfl⟩

/-! ### Claim C2 -/

/-- C2, as stated, is false: `endOfGame` is not terminal. Folding 700 ticks
(after sliding the player paddle off the serve line) ends the game 7-0 for
the computer, `endOfGame = 2`; 100 further ticks raise `p2Score` to 8 and the
win test `score === 7` fails again, so `endOfGame` falls back to 0. -/
theorem C2_counterexample :
    ¬ (∀ (serveDir0 : Bool) (evs extra : List GameEvent),
        (runGame serveDir0 evs).endOfGame ≠ 0 →
          (runGame serveDir0 (evs ++ extra)).endOfGame =
            (runGame serveDir0 evs).endOfGame) := by
  intro h
  have hne : (runGame false (slideEvs ++ tickEvs 700)).endOfGame ≠ 0 := by
    rw [run700]
    decide
  have hx := h false (slideEvs ++ tickEvs 700) (tickEvs 100) hne
  have he : (slideEvs ++ tickEvs 700) ++ tickEvs 100 = slideEvs ++ tickEvs 800 := by
    rw [List.append_assoc]
    unfold tickEvs
    rw [← List.replicate_add]
  rw [he, run700, run800] at hx
  revert hx
  decide

/-- C2 (amended): in every reachable state `endOfGame` is the pointwise win
test on the current scores — 1 if `p1Score = maxScore`, else 2 if
`p2Score = maxScore`, else 0. Hence it is 0 until a score first reaches
`maxScore` and names the winner while that score equals `maxScore`, but it is
not terminal: a `Restart` resets it, and ticks delivered after game over can
push the score past `maxScore`, returning `endOfGame` to 0. -/
theorem C2_endOfGame_characterisation :
    ∀ s, Reachable s →
      s.endOfGame =
        if s.p1Score = maxScore then playerBarNum
        else if s.p2Score = maxScore then computerBarNum
        else 0 :=
  reachable_invariant EndOfGameCanon
    (fun d0 => by unfold EndOfGameCanon; cases d0 <;> decide)
    endOfGameCanon_step

/-- C2 witness: the characterisation evaluated at the initial state. -/
theorem C2_witness :
    (runGame false []).endOfGame =
      if (runGame false []).p1Score = maxScore then playerBarNum
      else if (runGame false []).p2Score = maxScore then computerBarNum
      else 0 :=
  C2_endOfGame_characterisation (runGame false []) ⟨false, [], rfl⟩

/-! ### Claim C3 -/

/-- C3, as stated, is false: scores are not monotone over arbitrary event
sequences, because `Restart` resets them to 0. After 100 ticks `p2Score = 1`;
one `Restart` drops it back to 0. -/
theorem C3_counterexample :
    ¬ (∀ (serveDir0 : Bool) (evs extra : List GameEvent),
        (runGame serveDir0 evs).p1Score ≤ (runGame serveDir0 (evs ++ extra)).p1Score ∧
        (runGame serveDir0 evs).p2Score ≤ (runGame serveDir0 (evs ++ extra)).p2Score) := by
  intro h
  have hx := h false (slideEvs ++ tickEvs 100) [GameEvent.restart true]
  rw [runGame_append false (slideEvs ++ tickEvs 100) [GameEvent.restart true]] at hx
  rw [run100] at hx
  revert hx
  decide

/-- Along any `Restart`-free event suffix the two scores never decrease. -/
theorem score_mono_no_restart (d0 : Bool) :
    ∀ evs : List GameEvent, (∀ b : Bool, GameEvent.restart b ∉ evs) →
      ∀ s : State,
        s.p1Score ≤ (evs.foldl (reduceState d0) s).p1Score ∧
        s.p2Score ≤ (evs.foldl (reduceState d0) s).p2Score := by
  intro evs
  induction evs with
  | nil => exact fun _ s => ⟨le_refl _, le_refl _⟩
  | cons e rest ih =>
    intro hnr s
    have hrest : ∀ b : Bool, GameEvent.restart b ∉ rest := fun b hb =>
      hnr b (List.mem_cons_of_mem _ hb)
    have hstep : s.p1Score ≤ (reduceState d0 s e).p1Score ∧
        s.p2Score ≤ (reduceState d0 s e).p2Score := by
      cases e with
      | tick el d =>
        have hm1 : (movedState s el).p1Score = s.p1Score := rfl
        have hm2 : (movedState s el).p2Score = s.p2Score := rfl
        constructor
        · rw [reduceState_tick, tick_def, objIH_p1Score]
          unfold newP1Score incrementScore
          rw [hm1]
          split <;> linarith
        · rw [reduceState_tick, tick_def, objIH_p2Score]
          unfold newP2Score incrementScore
          rw [hm2]
          split <;> linarith
      | slide dir => exact ⟨le_refl _, le_refl _⟩
      | restart b => exact absurd (List.mem_cons_self _ _) (hnr b)
      | toggleBreakout b => exact ⟨le_refl _, le_refl _⟩
      | setDifficulty v => exact ⟨le_refl _, le_refl _⟩
    have hacc := ih hrest (reduceState d0 s e)
    exact ⟨le_trans hstep.1 hacc.1, le_trans hstep.2 hacc.2⟩

/-- C3 (amended): on a `Tick` each score increases by exactly 1 when its
endzone condition holds for the advanced ball and by 0 otherwise; `Restart`
resets both scores to 0; every other event leaves them unchanged. In
particular the scores never decrease along any `Restart`-free sequence. -/
theorem C3_score_dynamics :
    ∀ (serveDir0 : Bool) (s : State) (e : GameEvent),
      ((reduceState serveDir0 s e).p1Score, (reduceState serveDir0 s e).p2Score) =
        (match e with
          | .tick el _ =>
            (incrementScore s.p1Score (isballp2Endzone (movedState s el)),
             incrementScore s.p2Score (isballp1Endzone (movedState s el)))
          | .restart _ => (0, 0)
          | _ => (s.p1Score, s.p2Score)) ∧
      (∀ evs : List GameEvent, (∀ b : Bool, GameEvent.restart b ∉ evs) →
        s.p1Score ≤ (evs.foldl (reduceState serveDir0) s).p1Score ∧
        s.p2Score ≤ (evs.foldl (reduceState serveDir0) s).p2Score) := by
  intro d0 s e
  constructor
  · cases e with
    | tick el d =>
      have h1 := objIH_p1Score d (movedState s el)
      have h2 := objIH_p2Score d (movedState s el)
      rw [reduceState_tick, tick_def] at *
      rw [h1, h2]
      rfl
    | slide dir => rfl
    | restart b => rfl
    | toggleBreakout b => rfl
    | setDifficulty v => rfl
  · exact fun evs hnr => score_mono_no_restart d0 evs hnr s

/-- C3 witness: the dynamics applied to the initial state and one tick, with
monotonicity over the restart-free suffix `[Tick]`. -/
theorem C3_witness :
    (initialState false).p1Score ≤
      ([GameEvent.tick 0 false].foldl (reduceState false) (initialState false)).p1Score ∧
    (initialState false).p2Score ≤
      ([GameEvent.tick 0 false].foldl (reduceState false) (initialState false)).p2Score :=
  (C3_score_dynamics false (initialState false) (GameEvent.tick 0 false)).2
    [GameEvent.tick 0 false] (fun b => by simp)

/-! ### Claim C4 -/

/-- A breakout state whose moved ball crosses the top border while overlapping
a brick, with no paddle in reach and no endzone: after one tick the moved
ball sits at `(303, -1)`, inside the brick and past `y ≤ 0`. -/
def borderBrickState : State :=
  { initialState false with
      isBreakout := true
      ball := { position := ⟨300, 2⟩, acceleration := Vector.Zero
                velocity := ⟨3, -3⟩, size := 7 }
      bricks := [{ id := 99, position := ⟨300, -10⟩, width := 7, height := 38
                   opacity := 1, numberOfHitsLeft := 4 }] }

/-- C4, as stated, is false: when a brick hit and a border contact coincide
(no paddle bounce, no endzone), the code's `calculateBallBounce` tests the
border *before* the brick, so the resulting velocity is the border result
`flipY` (here `(3, 3)`), not the brick result `flipX ∘ flipY` (`(-3, 3)`). -/
theorem C4_counterexample :
    ¬ (∀ (serveDir0 serveDir : Bool) (s : State) (el : ℚ),
        s.isBreakout = true →
        isballp1Endzone (movedState s el) = false →
        isballp2Endzone (movedState s el) = false →
        anyBrickHit (movedState s el) = true →
        (isballBounceOnLeftBar (movedState s el) ||
          isballBounceOnRightBar (movedState s el)) = false →
        isballBounceOnBorder (movedState s el) = true →
        (reduceState serveDir0 s (.tick el serveDir)).ball.velocity =
          s.ball.velocity.flipX.flipY) := by
  intro h
  have hx := h false false borderBrickState 0 (by decide) (by decide) (by decide)
    (by decide) (by decide) (by decide)
  revert hx
  decide

/-- C4 (amended): on a breakout tick with a brick hit, no endzone and no
paddle bounce, the border rule takes precedence over the brick rule — the
resulting velocity is `flipY` of the incoming velocity when the border test
holds, and `flipX ∘ flipY` (the brick retrace) only when it does not. -/
theorem C4_brick_bounce_priority :
    ∀ (serveDir0 serveDir : Bool) (s : State) (el : ℚ),
      s.isBreakout = true →
      isballp1Endzone (movedState s el) = false →
      isballp2Endzone (movedState s el) = false →
      anyBrickHit (movedState s el) = true →
      (isballBounceOnLeftBar (movedState s el) ||
        isballBounceOnRightBar (movedState s el)) = false →
      (reduceState serveDir0 s (.tick el serveDir)).ball.velocity =
        if isballBounceOnBorder (movedState s el) = true then s.ball.velocity.flipY
        else s.ball.velocity.flipX.flipY := by
  intro d0 d s el hB h1 h2 hbr hpad
  have hB' : (movedState s el).isBreakout = true := hB
  rw [reduceState_tick, tick_def, objIH_ball, h1, h2, hB', hbr, hpad]
  unfold calculateBallBounce
  cases hbord : isballBounceOnBorder (movedState s el) <;> simp [hbord] <;> rfl

/-- C4 witness: the amended priority evaluated at `borderBrickState`. -/
theorem C4_witness :
    (reduceState false borderBrickState (GameEvent.tick 0 false)).ball.velocity =
      if isballBounceOnBorder (movedState borderBrickState 0) = true then
        borderBrickState.ball.velocity.flipY
      else borderBrickState.ball.velocity.flipX.flipY :=
  C4_brick_bounce_priority false false borderBrickState 0 (by decide) (by decide)
    (by decide) (by decide) (by decide)

/-! ### Claim C5 -/

/-- The brick of `bState` worn down to one hit. -/
def brick8w : BrickBody :=
  { id := 8, position := ⟨280, 280⟩, width := 7, height := 38
    opacity := 1/4, numberOfHitsLeft := 1 }

/-- C5: in every reachable state no live brick has `numberOfHitsLeft ≤ 0` and
`bricksToRemove` has no duplicate ids; on a breakout tick, a brick with one
hit left that the advanced ball overlaps disappears from `bricks` and its id
ends up in `bricksToRemove` with multiplicity exactly 1. -/
theorem C5_brick_bookkeeping :
    ∀ s, Reachable s →
      (∀ b ∈ s.bricks, 0 < b.numberOfHitsLeft) ∧
      s.bricksToRemove.Nodup ∧
      (∀ (serveDir0 serveDir : Bool) (el : ℚ) (b : BrickBody),
        s.isBreakout = true → b ∈ s.bricks →
        isBallBounceOnBrick (moveObject s.ball) b = true →
        b.numberOfHitsLeft = 1 →
          (∀ b' ∈ (reduceState serveDir0 s (.tick el serveDir)).bricks, b'.id ≠ b.id) ∧
          (reduceState serveDir0 s (.tick el serveDir)).bricksToRemove.count b.id = 1) := by
  intro s hs
  obtain ⟨hgood, hids, hrm, hdisj⟩ := reachable_brickInv s hs
  refine ⟨?_, hrm, ?_⟩
  · intro b hb
    rcases hgood b hb with ⟨n, hn, h1⟩
    rw [hn]
    exact_mod_cast Nat.lt_of_lt_of_le Nat.zero_lt_one h1
  · intro d0 d el b hB hb hhit h1
    have hB' : (movedState s el).isBreakout = true := hB
    have hbt : b ∈ (movedState s el).bricks := hb
    have hhit' : isBallBounceOnBrick (movedState s el).ball b = true := hhit
    have hA : anyBrickHit (movedState s el) = true :=
      (anyBrickHit_iff (movedState s el)).2 ⟨b, hbt, hhit'⟩
    have hnb : setBrickOpacity b ∈ newBricksState (movedState s el) :=
      List.mem_map.2 ⟨b, hbt, by rw [if_pos hhit']⟩
    have hnn : ((newBricksState (movedState s el)).map BrickBody.id).Nodup := by
      rw [newBricksState_map_id]
      exact hids
    have hrem : brickToRemove (setBrickOpacity b) = true := by
      unfold brickToRemove setBrickOpacity
      simp [h1]
    constructor
    · rw [reduceState_tick, tick_def, objIH_bricks, if_pos hB', if_pos hA]
      intro b' hb' heq
      obtain ⟨hb'1, hb'k⟩ := List.mem_filter.1 hb'
      have hxy : b' = setBrickOpacity b := by
        refine List.inj_on_of_nodup_map hnn hb'1 hnb ?_
        show b'.id = (setBrickOpacity b).id
        rw [heq]
        rfl
      rw [hxy] at hb'k
      have hk0 : (setBrickOpacity b).numberOfHitsLeft = 0 := by
        unfold setBrickOpacity
        simp [h1]
      unfold brickToKeep at hb'k
      rw [hk0] at hb'k
      simp at hb'k
    · rw [reduceState_tick, tick_def, objIH_bricksToRemove, if_pos hB', List.count_append]
      have hz : ((movedState s el).bricksToRemove).count b.id = 0 :=
        List.count_eq_zero.2 (hdisj b hb)
      have hmem : b.id ∈ ((newBricksState (movedState s el)).filter brickToRemove).map
          getBrickID := by
        rw [getBrickID_eq]
        exact List.mem_map.2 ⟨setBrickOpacity b, List.mem_filter.2 ⟨hnb, hrem⟩, rfl⟩
      have hnd : (((newBricksState (movedState s el)).filter brickToRemove).map
          getBrickID).Nodup := by
        rw [getBrickID_eq]
        exact List.Nodup.sublist (List.Sublist.map _ (List.filter_sublist _)) hnn
      rw [hz, List.count_eq_one_of_mem hnd hmem]

/-- C5 witness: the reachable breakout state `bState 297 (-3) 1 (1/4)` (451
ticks into `breakoutWitnessEvs`) holds brick 8 at one hit with the ball one
tick away; after that tick brick 8 is gone and its id counted once in
`bricksToRemove`. -/
theorem C5_witness :
    (∀ b' ∈ (reduceState false (bState 297 (-3) 1 (1/4)) (GameEvent.tick 0 false)).bricks,
        b'.id ≠ brick8w.id) ∧
    (reduceState false (bState 297 (-3) 1 (1/4))
        (GameEvent.tick 0 false)).bricksToRemove.count brick8w.id = 1 :=
  (C5_brick_bookkeeping (bState 297 (-3) 1 (1/4))
      ⟨false, breakoutWitnessEvs, brun451⟩).2.2 false false 0 brick8w rfl
    (by decide) (by decide) (by decide)

/-! ### Claim C6 -/

/-- C6: reducing a `Restart` event from any state returns the original
initial state: scores 0/0, `endOfGame = 0`, default difficulty `25 / 20`,
`isBreakout = false`, the full initial brick grid with full hit counts, empty
`bricksToRemove`, and the initial paddle and ball bodies. -/
theorem C6_restart_full_reset :
    ∀ (serveDir0 : Bool) (s : State) (b : Bool),
      reduceState serveDir0 s (.restart b) = initialState serveDir0 ∧
      (initialState serveDir0).p1Score = 0 ∧
      (initialState serveDir0).p2Score = 0 ∧
      (initialState serveDir0).endOfGame = 0 ∧
      (initialState serveDir0).computerDifficulty = 25 / 20 ∧
      (initialState serveDir0).isBreakout = false ∧
      (initialState serveDir0).bricks = initialiseBricks ∧
      (∀ bk ∈ (initialState serveDir0).bricks, bk.numberOfHitsLeft = 4) ∧
      (initialState serveDir0).bricksToRemove = [] ∧
      (initialState serveDir0).playerBar = createBar playerBarNum ∧
      (initialState serveDir0).computerBar = createBar computerBarNum ∧
      (initialState serveDir0).ball = createBall serveDir0 := by
  intro d0 s b
  refine ⟨rfl, rfl, rfl, rfl, rfl, rfl, rfl, ?_, rfl, rfl, rfl, rfl⟩
  have h4 : ∀ bk ∈ initialiseBricks, bk.numberOfHitsLeft = 4 := by decide
  exact h4

/-- C6 witness: a restart from the opposite-serve initial state lands exactly
on the reducer's initial state. -/
theorem C6_witness :
    reduceState false (initialState true) (GameEvent.restart true) = initialState false :=
  (C6_restart_full_reset false (initialState true) true).1

/-! ### Claim C7 -/

/-- C7: a `Slide` replaces the player paddle position with
`position.add (0, direction)` exactly when the resulting y stays within
`[0, CanvasSize - BarHeight]`, and keeps the old position otherwise
(rejection, not clamping); in particular `Slide (-8)` from `y = 0` leaves
`y = 0`. -/
theorem C7_slide_clamp_by_rejection :
    ∀ (serveDir0 : Bool) (s : State) (direction : ℚ),
      reduceState serveDir0 s (.slide direction) =
        { s with playerBar :=
          { s.playerBar with position :=
              if (s.playerBar.position.add ⟨0, direction⟩).y ≤ CanvasSize - BarHeight ∧
                 (s.playerBar.position.add ⟨0, direction⟩).y ≥ 0 then
                s.playerBar.position.add ⟨0, direction⟩
              else s.playerBar.position } } ∧
      (s.playerBar.position.y = 0 →
        (reduceState serveDir0 s (.slide (-8))).playerBar.position.y = 0) := by
  intro d0 s dir
  refine ⟨rfl, fun h0 => ?_⟩
  rw [reduceState_slide_playerBar_position, if_neg]
  · exact h0
  · intro hc
    have hy : (s.playerBar.position.add ⟨0, -8⟩).y = -8 := by
      unfold Vector.add
      dsimp only
      rw [h0]
      norm_num
    rw [hy] at hc
    exact absurd hc.2 (by norm_num)

/-- A state with the player paddle already at the lower bound `y = 0`. -/
def zeroBarState : State :=
  { initialState false with playerBar :=
      { createBar playerBarNum with position := ⟨75, 0⟩ } }

/-- C7 witness: sliding up by 8 from `y = 0` is rejected and leaves `y = 0`. -/
theorem C7_witness :
    (reduceState false zeroBarState (GameEvent.slide (-8))).playerBar.position.y = 0 :=
  (C7_slide_clamp_by_rejection false zeroBarState (-8)).2 rfl

/-! ### Claim C8 -/

/-- C8: on every tick, after the unconditional ball advance, `p2Score`
increments by exactly 1 iff the moved ball has `x ≤ 0` and `p1Score` by
exactly 1 iff `x ≥ CanvasSize` (independent tests); when either endzone
condition holds the ball is replaced by a fresh centred ball with horizontal
speed ±3 and no vertical speed, skipping the bounce rules. -/
theorem C8_endzone_scoring_and_reset :
    ∀ (serveDir0 serveDir : Bool) (s : State) (el : ℚ),
      (reduceState serveDir0 s (.tick el serveDir)).p2Score =
        s.p2Score + (if (moveObject s.ball).position.x ≤ 0 then 1 else 0) ∧
      (reduceState serveDir0 s (.tick el serveDir)).p1Score =
        s.p1Score + (if (moveObject s.ball).position.x ≥ CanvasSize then 1 else 0) ∧
      (((moveObject s.ball).position.x ≤ 0 ∨ (moveObject s.ball).position.x ≥ CanvasSize) →
        (reduceState serveDir0 s (.tick el serveDir)).ball = createBall serveDir ∧
        (createBall serveDir).position.x = CanvasSize / 2 ∧
        (createBall serveDir).position.y = CanvasSize / 2 ∧
        ((createBall serveDir).velocity.x = 3 ∨ (createBall serveDir).velocity.x = -3) ∧
        (createBall serveDir).velocity.y = 0) := by
  intro d0 d s el
  refine ⟨?_, ?_, ?_⟩
  · rw [reduceState_tick, tick_def, objIH_p2Score]
    unfold newP2Score incrementScore isballp1Endzone
    simp only [decide_eq_true_eq]
    rfl
  · rw [reduceState_tick, tick_def, objIH_p1Score]
    unfold newP1Score incrementScore isballp2Endzone
    simp only [decide_eq_true_eq]
    rfl
  · intro hez
    have hcond : (isballp1Endzone (movedState s el) ||
        isballp2Endzone (movedState s el)) = true := by
      unfold isballp1Endzone isballp2Endzone
      rcases hez with hez | hez <;> simp [hez]
      · exact Or.inl hez
      · exact Or.inr hez
    refine ⟨?_, rfl, rfl, ?_, rfl⟩
    · rw [reduceState_tick, tick_def, objIH_ball, if_pos hcond]
    · cases d
      · exact Or.inr rfl
      · exact Or.inl rfl

/-- A state whose ball reaches the left endzone on the next tick. -/
def nearEndzoneState : State :=
  { initialState false with ball :=
      { position := ⟨2, 300⟩, acceleration := Vector.Zero
        velocity := ⟨-3, 0⟩, size := 7 } }

/-- C8 witness: from `x = 2` with velocity `(-3, 0)` the tick scores for
player 2 and resets the ball. -/
theorem C8_witness :
    (reduceState false nearEndzoneState (GameEvent.tick 0 false)).ball = createBall false :=
  ((C8_endzone_scoring_and_reset false false nearEndzoneState 0).2.2 (by decide)).1

/-! ### Claim C9 -/

/-- C9: in every reachable state the ball's horizontal velocity is nonzero —
in fact always exactly 3 or -3: the ball is created with ±3 and every bounce
rule preserves the magnitude, at most negating the component. -/
theorem C9_ball_velocity_x_nonzero :
    ∀ s, Reachable s →
      s.ball.velocity.x ≠ 0 ∧
      (s.ball.velocity.x = 3 ∨ s.ball.velocity.x = -3) := by
  intro s hs
  have h := reachable_invariant BallVelXOk
    (fun d0 => by unfold BallVelXOk; cases d0 <;> decide)
    ballVelXOk_step s hs
  refine ⟨?_, h⟩
  rcases h with h | h <;> rw [h] <;> norm_num

/-- C9 witness: the invariant evaluated at the initial state. -/
theorem C9_witness :
    (runGame false []).ball.velocity.x ≠ 0 ∧
    ((runGame false []).ball.velocity.x = 3 ∨ (runGame false []).ball.velocity.x = -3) :=
  C9_ball_velocity_x_nonzero (runGame false []) ⟨false, [], rfl⟩

/-! ### Claim C10 -/

/-- C10: in every reachable state the paddles' x coordinates keep their
creation values `CanvasSize / 8` and `7 * CanvasSize / 8`, and no event
changes either of them. -/
theorem C10_paddle_x_frame :
    ∀ s, Reachable s →
      s.playerBar.position.x = CanvasSize / 8 ∧
      s.computerBar.position.x = 7 * CanvasSize / 8 ∧
      (∀ (serveDir0 : Bool) (e : GameEvent),
        (reduceState serveDir0 s e).playerBar.position.x = s.playerBar.position.x ∧
        (reduceState serveDir0 s e).computerBar.position.x = s.computerBar.position.x) := by
  intro s hs
  have h := reachable_invariant BarXConst
    (fun d0 => by unfold BarXConst; cases d0 <;> decide)
    barXConst_step s hs
  refine ⟨h.1, h.2, ?_⟩
  intro d0 e
  have h2 := barXConst_step d0 s e h
  exact ⟨h2.1.trans h.1.symm, h2.2.trans h.2.symm⟩

/-- C10 witness: the frame condition evaluated at the initial state. -/
theorem C10_witness :
    (runGame false []).playerBar.position.x = CanvasSize / 8 ∧
    (runGame false []).computerBar.position.x = 7 * CanvasSize / 8 :=
  ⟨(C10_paddle_x_frame (runGame false []) ⟨false, [], rfl⟩).1,
   (C10_paddle_x_frame (runGame false []) ⟨false, [], rfl⟩).2.1⟩

end Pong